import Mathlib

/-
Verification development for the elliptical-spot extractor and sector
calibration pipeline.  The numeric code (TypeScript, IEEE doubles) is
shallowly embedded over the real numbers: every arithmetic step of the
source is mirrored one-to-one, JavaScript Math.floor / Math.ceil /
Math.round become Int.floor / Int.ceil / round, Math.sqrt becomes
Real.sqrt, Math.atan2 becomes Complex.arg, and the ambient random source
consumed by the RANSAC sampler is made an explicit stream parameter
(each trial receives the pair of indices that the rejection-sampling
loop of the source produces).  Division by zero follows the Lean
convention x / 0 = 0; all claims are settled away from such points.
-/

set_option maxHeartbeats 1600000

noncomputable section

namespace EPX

/-- Status tag of a detected ellipse: the optional
'active' | 'outlier' field of the source, made total. -/
inductive SpotStatus
  | active
  | outlier
deriving DecidableEq, Repr

/-- EllipseData record from types.ts. -/
structure EllipseData where
  id : ℤ
  cx : ℝ
  cy : ℝ
  rx : ℝ
  ry : ℝ
  angle : ℝ
  status : SpotStatus

/-- CalibrationResult record from types.ts. -/
structure CalibrationResult where
  rotationCenterX : ℝ
  slope : ℝ
  intercept : ℝ
  angularResolution : ℝ
  rSquared : ℝ
  reprojectionError : ℝ
  isValid : Bool

/-- CalibrationMethod tag from types.ts. -/
inductive CalibrationMethod
  | linear
  | ransac
  | iterative
deriving DecidableEq, Repr

/-- CalibrationOptions from calibration.ts (both fields optional). -/
structure CalibrationOptions where
  iterativeIterations : Option ℕ
  iterativePercentage : Option ℝ

/-- JavaScript "v || d" default for an optional number: undefined and 0
are falsy and give the default. -/
def orDefaultNat (v : Option ℕ) (d : ℕ) : ℕ :=
  match v with
  | none => d
  | some x => if x = 0 then d else x

/-- JavaScript "v || d" default for an optional real number. -/
def orDefaultReal (v : Option ℝ) (d : ℝ) : ℝ :=
  match v with
  | none => d
  | some x => if x = 0 then d else x

/-- getAspectRatio from calibration.ts: bounding-box width over height of
the rotated ellipse. -/
def getAspect (e : EllipseData) : ℝ :=
  let cosT := Real.cos e.angle
  let sinT := Real.sin e.angle
  let w := 2 * Real.sqrt ((e.rx * cosT) ^ 2 + (e.ry * sinT) ^ 2)
  let h := 2 * Real.sqrt ((e.rx * sinT) ^ 2 + (e.ry * cosT) ^ 2)
  w / h

/-- Ordinary least-squares slope and intercept, the sum pattern shared by
fitLinearWithOutlierRemoval, the RANSAC refit and the iterative fits in
calibration.ts. -/
def lsFit (data : List (ℝ × ℝ)) : ℝ × ℝ :=
  let n : ℝ := data.length
  let sumX := (data.map (fun p => p.1)).sum
  let sumY := (data.map (fun p => p.2)).sum
  let sumXY := (data.map (fun p => p.1 * p.2)).sum
  let sumXX := (data.map (fun p => p.1 * p.1)).sum
  let slope := (n * sumXY - sumX * sumY) / (n * sumXX - sumX * sumX)
  (slope, (sumY - slope * sumX) / n)

/-- Result triple of the three fitting strategies in calibration.ts:
slope, intercept, and the inlier index set. -/
structure FitResult where
  slope : ℝ
  intercept : ℝ
  inl : List ℕ

/-- fitLinearWithOutlierRemoval from calibration.ts: one least-squares
fit over all points, then inliers are the points whose absolute residual
is at most max(2 * stddev, 0.05). -/
def fitLinearWithOutlierRemoval (data : List (ℝ × ℝ)) : FitResult :=
  let sb := lsFit data
  let slope := sb.1
  let intercept := sb.2
  let n : ℝ := data.length
  let residuals := data.map (fun p => |p.2 - (slope * p.1 + intercept)|)
  let meanRes := residuals.sum / n
  let variance := (residuals.map (fun r => (r - meanRes) ^ 2)).sum / n
  let stdDev := Real.sqrt variance
  let threshold := max (stdDev * 2) 0.05
  ⟨slope, intercept,
    (List.range data.length).filter (fun i => decide (residuals.getD i 0 ≤ threshold))⟩

/-- State carried through the RANSAC trial loop of fitRansac. -/
structure RState where
  bestSlope : ℝ
  bestIntercept : ℝ
  maxInliers : ℕ
  inl : List ℕ

/-- Inliers of the line y = slope * x + intercept: indices whose absolute
residual is strictly below the threshold (fitRansac step 3). -/
def lineInl (data : List (ℝ × ℝ)) (th slope intercept : ℝ) : List ℕ :=
  (List.range data.length).filter (fun j =>
    decide (|(data.getD j (0, 0)).2 - (slope * (data.getD j (0, 0)).1 + intercept)| < th))

/-- One RANSAC trial (fitRansac steps 1-4): fit the line through the
sampled pair, skip it when near vertical, and keep it when it has
strictly more inliers than the best so far. -/
def ransacTrial (data : List (ℝ × ℝ)) (th : ℝ) (pr : ℕ × ℕ) (st : RState) : RState :=
  let p1 := data.getD pr.1 (0, 0)
  let p2 := data.getD pr.2 (0, 0)
  if |p2.1 - p1.1| < 1e-5 then st
  else
    let slope := (p2.2 - p1.2) / (p2.1 - p1.1)
    let intercept := p1.2 - slope * p1.1
    let inl := lineInl data th slope intercept
    if st.maxInliers < inl.length then ⟨slope, intercept, inl.length, inl⟩ else st

/-- The RANSAC loop state after the given number of trials, each trial
consuming the sampled index pair of its position in the random stream. -/
def ransacState (data : List (ℝ × ℝ)) (th : ℝ) (iters : ℕ) (pairs : ℕ → ℕ × ℕ) : RState :=
  (List.range iters).foldl (fun st i => ransacTrial data th (pairs i) st) ⟨0, 0, 0, []⟩

/-- Inlier count of a single trial, ignoring the running best: near
vertical pairs score 0. -/
def trialScore (data : List (ℝ × ℝ)) (th : ℝ) (pr : ℕ × ℕ) : ℕ :=
  (ransacTrial data th pr ⟨0, 0, 0, []⟩).maxInliers

/-- fitRansac from calibration.ts.  Returns none when fewer than 2
points or fewer than 2 inliers were found; otherwise refits by least
squares over the winning inlier set (step 5). -/
def fitRansac (data : List (ℝ × ℝ)) (iters : ℕ) (th : ℝ) (pairs : ℕ → ℕ × ℕ) :
    Option FitResult :=
  if data.length < 2 then none
  else
    let st := ransacState data th iters pairs
    if st.maxInliers < 2 then none
    else
      let sb := lsFit (st.inl.map (fun idx => data.getD idx (0, 0)))
      some ⟨sb.1, sb.2, st.inl⟩

/-- Working point of fitIterative: position plus the original index. -/
structure IPoint where
  x : ℝ
  y : ℝ
  idx : ℕ

/-- Absolute residual of a working point against a line. -/
def iterRes (slope intercept : ℝ) (p : IPoint) : ℝ :=
  |p.y - (slope * p.x + intercept)|

/-- The least-squares denominator n * sumXX - sumX * sumX checked by
each round of fitIterative before it fits. -/
def iterDenom (cur : List IPoint) : ℝ :=
  let n : ℝ := cur.length
  let sumX := (cur.map (fun p => p.x)).sum
  let sumXX := (cur.map (fun p => p.x * p.x)).sum
  n * sumXX - sumX * sumX

/-- The least-squares line (slope, intercept) each round of
fitIterative fits on its current working set. -/
def iterLine (cur : List IPoint) : ℝ × ℝ :=
  let n : ℝ := cur.length
  let sumX := (cur.map (fun p => p.x)).sum
  let sumY := (cur.map (fun p => p.y)).sum
  let sumXY := (cur.map (fun p => p.x * p.y)).sum
  let sumXX := (cur.map (fun p => p.x * p.x)).sum
  let slope := (n * sumXY - sumX * sumY) / (n * sumXX - sumX * sumX)
  (slope, (sumY - slope * sumX) / n)

/-- One round of fitIterative: none encodes the break branches (fewer
than 3 points, or a near-zero least-squares denominator); otherwise
sort by descending residual against the round's least-squares line and
keep the smallest max(3, n - max(1, floor(n * percentage / 100)))
residuals. -/
def iterRound (pct : ℝ) (cur : List IPoint) : Option (List IPoint) :=
  if cur.length < 3 then none
  else if |iterDenom cur| < 1e-9 then none
  else
    let sb := iterLine cur
    let sorted := cur.insertionSort
      (fun a b => iterRes sb.1 sb.2 b ≤ iterRes sb.1 sb.2 a)
    let countToRemove : ℤ := max 1 ⌊(cur.length : ℝ) * (pct / 100)⌋
    let countToKeep : ℤ := max 3 ((cur.length : ℤ) - countToRemove)
    some (sorted.drop (sorted.length - countToKeep.toNat))

/-- The trimming loop of fitIterative, run for the requested number of
rounds; a break keeps the current working set. -/
def iterLoop (pct : ℝ) : ℕ → List IPoint → List IPoint
  | 0, cur => cur
  | k + 1, cur =>
    match iterRound pct cur with
    | none => cur
    | some next => iterLoop pct k next

/-- Tag every data point with its original index, as fitIterative does
before its loop. -/
def iterTag (data : List (ℝ × ℝ)) : List IPoint :=
  data.enum.map (fun q => ⟨q.2.1, q.2.2, q.1⟩)

/-- fitIterative from calibration.ts: the returned inlier set is the
original indices of the final surviving working set. -/
def fitIterative (data : List (ℝ × ℝ)) (iterations : ℕ) (pct : ℝ) : List ℕ :=
  (iterLoop pct iterations (iterTag data)).map (fun p => p.idx)

/-- The data points still marked as inliers, paired with their index:
the data.forEach((p, i) => if inlierIndices.has(i) ...) pattern of
calculateSectorCalibration. -/
def inlSelect (data : List (ℝ × ℝ)) (inl : List ℕ) : List (ℕ × (ℝ × ℝ)) :=
  data.enum.filter (fun q => decide (q.1 ∈ inl))

/-- Strategy dispatch of calculateSectorCalibration: slope, intercept
and inlier set for the chosen method (slope and intercept stay 0 when
RANSAC fails or the iterative inlier count is below 2). -/
def calibFit (data : List (ℝ × ℝ)) (method : CalibrationMethod)
    (opts : CalibrationOptions) (pairs : ℕ → ℕ × ℕ) : FitResult :=
  match method with
  | .ransac => (fitRansac data 100 0.15 pairs).getD ⟨0, 0, []⟩
  | .iterative =>
    let iterations := orDefaultNat opts.iterativeIterations 3
    let pct := orDefaultReal opts.iterativePercentage 10
    let inl := fitIterative data iterations pct
    let sel := inlSelect data inl
    if 2 ≤ sel.length then
      let sb := lsFit (sel.map (fun q => q.2))
      ⟨sb.1, sb.2, inl⟩
    else ⟨0, 0, inl⟩
  | .linear => fitLinearWithOutlierRemoval data

/-- The x/aspect-ratio data extracted from the ellipse list by
calculateSectorCalibration. -/
def calibData (ellipses : List EllipseData) : List (ℝ × ℝ) :=
  ellipses.map (fun e => (e.cx, getAspect e))

/-- calculateSectorCalibration from calibration.ts.  Fewer than 3
ellipses short-circuit to the all-zero invalid model with every status
reset to active; otherwise the chosen strategy is run, R-squared and the
RMSE reprojection error are computed over the inliers only, and every
ellipse is returned with status active exactly on the inlier set. -/
def calculateSectorCalibration (ellipses : List EllipseData)
    (method : CalibrationMethod) (opts : CalibrationOptions)
    (pairs : ℕ → ℕ × ℕ) : CalibrationResult × List EllipseData :=
  if ellipses.length < 3 then
    (⟨0, 0, 0, 0, 0, 0, false⟩,
      ellipses.map (fun e => { e with status := SpotStatus.active }))
  else
    let data := calibData ellipses
    let fit := calibFit data method opts pairs
    let inlData := inlSelect data fit.inl
    let validCount := inlData.length
    let sumY := (inlData.map (fun q => q.2.2)).sum
    let meanY := if 0 < validCount then sumY / (validCount : ℝ) else 0
    let ssTotal : ℝ := (inlData.map (fun q => (q.2.2 - meanY) ^ 2)).sum
    let ssRes : ℝ :=
      (inlData.map (fun q => (q.2.2 - (fit.slope * q.2.1 + fit.intercept)) ^ 2)).sum
    let rSq : ℝ := if ssTotal = 0 then 0 else 1 - ssRes / ssTotal
    let rmse := if 0 < validCount then Real.sqrt (ssRes / (validCount : ℝ)) else 0
    let rcx := if 1e-10 < |fit.slope| then -fit.intercept / fit.slope else 0
    (⟨rcx, fit.slope, fit.intercept, fit.slope * (180 / Real.pi), |rSq|, rmse,
        decide (3 ≤ validCount ∧ 0.5 < |rSq|)⟩,
      ellipses.enum.map (fun q =>
        { q.2 with status := if q.1 ∈ fit.inl then SpotStatus.active else SpotStatus.outlier }))

/-- JavaScript Math.atan2(y, x), embedded as the argument of the complex
number x + y i (range (-pi, pi], atan2 0 0 = 0). -/
def atan2 (y x : ℝ) : ℝ :=
  Complex.arg ⟨x, y⟩

/-- ProcessingMode tag from types.ts. -/
inductive ProcessingMode
  | dark
  | light
deriving DecidableEq, Repr

/-- ROI record from types.ts. -/
structure ROI where
  id : ℤ
  cx : ℝ
  cy : ℝ
  rx : ℝ
  ry : ℝ
  rotation : ℝ

/-- A decoded canvas: dimensions plus the rgb channels of every pixel. -/
structure Img where
  width : ℤ
  height : ℤ
  pixel : ℤ → ℤ → ℝ × ℝ × ℝ

/-- getLuminance from imageProcessing.ts. -/
def getLuminance (r g b : ℝ) : ℝ :=
  0.299 * r + 0.587 * g + 0.114 * b

/-- Pixel value used by extractEllipseFromROI: luminance, inverted in
dark mode. -/
def pxVal (img : Img) (mode : ProcessingMode) (x y : ℤ) : ℝ :=
  let c := img.pixel x y
  let v := getLuminance c.1 c.2.1 c.2.2
  match mode with
  | .dark => 255 - v
  | .light => v

/-- Crop window of extractEllipseFromROI:
(startX, startY, width, height). -/
def roiCrop (img : Img) (roi : ROI) : ℤ × ℤ × ℤ × ℤ :=
  let maxRadius := max roi.rx roi.ry
  let startX := ⌊max 0 (roi.cx - maxRadius)⌋
  let startY := ⌊max 0 (roi.cy - maxRadius)⌋
  let endX := ⌈min (img.width : ℝ) (roi.cx + maxRadius)⌉
  let endY := ⌈min (img.height : ℝ) (roi.cy + maxRadius)⌉
  (startX, startY, endX - startX, endY - startY)

/-- Sample collection loop of extractEllipseFromROI: all crop-window
pixels inside the (1.1-slack) rotated ellipse test, listed row-major as
(local column, local row, value). -/
def roiPixels (img : Img) (roi : ROI) (mode : ProcessingMode) : List (ℤ × ℤ × ℝ) :=
  let c := roiCrop img roi
  let startX := c.1
  let startY := c.2.1
  let width := c.2.2.1
  let height := c.2.2.2
  let cosT := Real.cos (-roi.rotation)
  let sinT := Real.sin (-roi.rotation)
  (List.range (height.toNat * width.toNat)).filterMap (fun k =>
    let row : ℤ := (k / width.toNat : ℕ)
    let col : ℤ := (k % width.toNat : ℕ)
    let px := startX + col
    let py := startY + row
    let tx := (px : ℝ) - roi.cx
    let ty := (py : ℝ) - roi.cy
    let rxCoord := tx * cosT - ty * sinT
    let ryCoord := tx * sinT + ty * cosT
    if rxCoord ^ 2 / roi.rx ^ 2 + ryCoord ^ 2 / roi.ry ^ 2 > 1.1 then none
    else some (col, row, pxVal img mode px py))

/-- Minimum sample value, folded with the 255 start of the source. -/
def roiMinVal (pixels : List (ℤ × ℤ × ℝ)) : ℝ :=
  pixels.foldl (fun m p => if p.2.2 < m then p.2.2 else m) 255

/-- Maximum sample value, folded with the 0 start of the source. -/
def roiMaxVal (pixels : List (ℤ × ℤ × ℝ)) : ℝ :=
  pixels.foldl (fun m p => if m < p.2.2 then p.2.2 else m) 0

/-- Threshold rule of extractEllipseFromROI: a positive override wins,
otherwise the midpoint of the value range when the range exceeds 10,
otherwise the minimum value. -/
def roiThreshold (pixels : List (ℤ × ℤ × ℝ)) (thOv : Option ℝ) : ℝ :=
  let minVal := roiMinVal pixels
  let maxVal := roiMaxVal pixels
  let range := maxVal - minVal
  let auto := if 10 < range then minVal + range * 0.5 else minVal
  match thOv with
  | some t => if 0 < t then t else auto
  | none => auto

/-- Weighted raw moments (m00, m10, m01, m11, m20, m02) of the samples
at or above the threshold, with weight value - threshold + 1. -/
def roiMoments (pixels : List (ℤ × ℤ × ℝ)) (threshold : ℝ) :
    ℝ × ℝ × ℝ × ℝ × ℝ × ℝ :=
  let sel := pixels.filter (fun p => decide (threshold ≤ p.2.2))
  let w := fun p : ℤ × ℤ × ℝ => p.2.2 - threshold + 1
  ((sel.map (fun p => w p)).sum,
   (sel.map (fun p => w p * (p.1 : ℝ))).sum,
   (sel.map (fun p => w p * (p.2.1 : ℝ))).sum,
   (sel.map (fun p => w p * (p.1 : ℝ) * (p.2.1 : ℝ))).sum,
   (sel.map (fun p => w p * (p.1 : ℝ) * (p.1 : ℝ))).sum,
   (sel.map (fun p => w p * (p.2.1 : ℝ) * (p.2.1 : ℝ))).sum)

/-- calculateEllipseFromMoments from the ROI-refinement module: zero
total weight falls back to the crop origin with unit semi-axes,
otherwise centroid, 2-sigma semi-axes (eigenvalues clamped to 0 and
radii floored at 1) and half-angle orientation. -/
def calculateEllipseFromMoments (id : ℤ) (m00 m10 m01 m11 m20 m02 offsetX offsetY : ℝ) :
    EllipseData :=
  if m00 = 0 then ⟨id, offsetX, offsetY, 1, 1, 0, .active⟩
  else
    let xc := m10 / m00
    let yc := m01 / m00
    let mu20 := m20 / m00 - xc * xc
    let mu02 := m02 / m00 - yc * yc
    let mu11 := m11 / m00 - xc * yc
    let common := Real.sqrt (4 * mu11 * mu11 + (mu20 - mu02) * (mu20 - mu02))
    let lambda1 := max 0 ((mu20 + mu02 + common) / 2)
    let lambda2 := max 0 ((mu20 + mu02 - common) / 2)
    let rx := 2 * Real.sqrt lambda1
    let ry := 2 * Real.sqrt lambda2
    let angle := 0.5 * atan2 (2 * mu11) (mu20 - mu02)
    ⟨id, offsetX + xc, offsetY + yc, max 1 rx, max 1 ry, angle, .active⟩

/-- extractEllipseFromROI from the ROI-refinement module: an empty crop
window or fewer than 3 collected samples return the ellipse unchanged at
the region's center and axes; otherwise the thresholded weighted moments
are converted to an ellipse. -/
def extractEllipseFromROI (img : Img) (roi : ROI) (mode : ProcessingMode)
    (thOv : Option ℝ) : EllipseData :=
  let c := roiCrop img roi
  if c.2.2.1 ≤ 0 ∨ c.2.2.2 ≤ 0 then
    ⟨roi.id, roi.cx, roi.cy, roi.rx, roi.ry, roi.rotation, .active⟩
  else
    let pixels := roiPixels img roi mode
    if pixels.length < 3 then
      ⟨roi.id, roi.cx, roi.cy, roi.rx, roi.ry, roi.rotation, .active⟩
    else
      let m := roiMoments pixels (roiThreshold pixels thOv)
      calculateEllipseFromMoments roi.id m.1 m.2.1 m.2.2.1 m.2.2.2.1 m.2.2.2.2.1
        m.2.2.2.2.2 (c.1 : ℝ) (c.2.1 : ℝ)

/-- Row or column group of the grid resolver: member ellipses plus the
average projected coordinate. -/
structure GridGroup where
  points : List EllipseData
  avg : ℝ

/-- Output of findGridFromBasis. -/
structure GridInfo where
  orientation : ℝ
  rows : List GridGroup
  cols : List GridGroup

/-- Determinant of the 2x2 basis matrix [u v] built from the three
chosen ellipses in findGridFromBasis. -/
def basisDet (origin xRef yRef : EllipseData) : ℝ :=
  (xRef.cx - origin.cx) * (yRef.cy - origin.cy) -
    (xRef.cy - origin.cy) * (yRef.cx - origin.cx)

/-- Real-valued lattice coordinates (i, j) of a point in the basis:
the 2x2 inverse applied to the point relative to the origin. -/
def gridIJ (origin xRef yRef e : EllipseData) : ℝ × ℝ :=
  let ux := xRef.cx - origin.cx
  let uy := xRef.cy - origin.cy
  let vx := yRef.cx - origin.cx
  let vy := yRef.cy - origin.cy
  let det := basisDet origin xRef yRef
  let dx := e.cx - origin.cx
  let dy := e.cy - origin.cy
  ((vy * dx - vx * dy) / det, (-uy * dx + ux * dy) / det)

/-- Average basis-vector length, the error-tolerance scale of
findGridFromBasis. -/
def gridScale (origin xRef yRef : EllipseData) : ℝ :=
  let ux := xRef.cx - origin.cx
  let uy := xRef.cy - origin.cy
  let vx := yRef.cx - origin.cx
  let vy := yRef.cy - origin.cy
  (Real.sqrt (ux * ux + uy * uy) + Real.sqrt (vx * vx + vy * vy)) / 2

/-- Distance from a point to its nearest ideal lattice node
I * u + J * v with I, J the rounded lattice coordinates. -/
def gridResid (origin xRef yRef e : EllipseData) : ℝ :=
  let ux := xRef.cx - origin.cx
  let uy := xRef.cy - origin.cy
  let vx := yRef.cx - origin.cx
  let vy := yRef.cy - origin.cy
  let ij := gridIJ origin xRef yRef e
  let I : ℤ := round ij.1
  let J : ℤ := round ij.2
  let dx := e.cx - origin.cx
  let dy := e.cy - origin.cy
  Real.sqrt ((dx - ((I : ℝ) * ux + (J : ℝ) * vx)) ^ 2 +
    (dy - ((I : ℝ) * uy + (J : ℝ) * vy)) ^ 2)

/-- Acceptance test of findGridFromBasis: the residual to the ideal
lattice node is below 40 percent of the basis scale. -/
def gridAccept (origin xRef yRef e : EllipseData) : Prop :=
  gridResid origin xRef yRef e < gridScale origin xRef yRef * 0.4

instance (origin xRef yRef e : EllipseData) : Decidable (gridAccept origin xRef yRef e) :=
  inferInstanceAs (Decidable (_ < _))

/-- First-occurrence key order of a JavaScript Map built by pushing
entries in list order. -/
def keyOrder (l : List ℤ) : List ℤ :=
  l.foldl (fun acc k => if k ∈ acc then acc else acc ++ [k]) []

/-- findGridFromBasis from the analysis module: no grid when the basis
determinant is near zero; otherwise every accepted ellipse is filed
under its rounded lattice row and column, and groups with at least two
members are reported with their average rotated-frame coordinate. -/
def findGridFromBasis (ellipses : List EllipseData) (origin xRef yRef : EllipseData) :
    Option GridInfo :=
  if |basisDet origin xRef yRef| < 1e-6 then none
  else
    let ux := xRef.cx - origin.cx
    let uy := xRef.cy - origin.cy
    let orientation := atan2 uy ux
    let cosT := Real.cos orientation
    let sinT := Real.sin orientation
    let accepted := ellipses.filter (fun e => decide (gridAccept origin xRef yRef e))
    let rowKey := fun e => round (gridIJ origin xRef yRef e).2
    let colKey := fun e => round (gridIJ origin xRef yRef e).1
    let rows := ((keyOrder (accepted.map rowKey)).map (fun J =>
        let pts := accepted.filter (fun e => decide (rowKey e = J))
        GridGroup.mk pts
          (((pts.map (fun p => -p.cx * sinT + p.cy * cosT)).sum) / (pts.length : ℝ)))).filter
      (fun r => decide (1 < r.points.length))
    let cols := ((keyOrder (accepted.map colKey)).map (fun I =>
        let pts := accepted.filter (fun e => decide (colKey e = I))
        GridGroup.mk pts
          (((pts.map (fun p => p.cx * cosT + p.cy * sinT)).sum) / (pts.length : ℝ)))).filter
      (fun c => decide (1 < c.points.length))
    some ⟨orientation, rows, cols⟩

/-- Target-to-source mapping of generateSectorImage: a sector point with
polar coordinates (r, theta) samples the source at
(r + rotationCenterX, theta / |slope| + height / 2). -/
def sectorSrc (cal : CalibrationResult) (srcH r theta : ℝ) : ℝ × ℝ :=
  (r + cal.rotationCenterX, theta / |cal.slope| + srcH / 2)

/-- Modelled from the spec: the conceptual forward (source-to-target)
formulas of the round-trip property, r = srcX - rotationCenterX and
theta = (srcY - height / 2) * slope, with the remapper's absolute
slope. -/
def specForward (cal : CalibrationResult) (srcH : ℝ) (p : ℝ × ℝ) : ℝ × ℝ :=
  (p.1 - cal.rotationCenterX, (p.2 - srcH / 2) * |cal.slope|)

/-- The six geometric fields of an ellipse record, everything except the
status tag. -/
def coreFields (x : EllipseData) : ℤ × ℝ × ℝ × ℝ × ℝ × ℝ :=
  (x.id, x.cx, x.cy, x.rx, x.ry, x.angle)

/-- C3: with fewer than 3 input ellipses, calculateSectorCalibration
returns (it is a total function, so it cannot throw) the model with
rotationCenterX, slope, intercept, angularResolution, rSquared and
reprojectionError all zero and isValid false. -/
theorem calib_short_input_zero_model (e : List EllipseData) (m : CalibrationMethod)
    (o : CalibrationOptions) (p : ℕ → ℕ × ℕ) (h : e.length < 3) :
    (calculateSectorCalibration e m o p).1 = ⟨0, 0, 0, 0, 0, 0, false⟩ := by
  simp [calculateSectorCalibration, if_pos h]

/-- Witness for calib_short_input_zero_model at the empty input list. -/
theorem calib_short_input_zero_model_witness :
    (calculateSectorCalibration [] .linear ⟨none, none⟩ (fun _ => (0, 0))).1 =
      ⟨0, 0, 0, 0, 0, 0, false⟩ :=
  calib_short_input_zero_model [] .linear ⟨none, none⟩ (fun _ => (0, 0)) (by simp)

/-- C1 (amended): the rSquared field of the returned model is always
nonnegative, because the absolute value is taken before returning (the
original closed upper bound 1 fails, see calib_rSquared_above_one). -/
theorem calib_rSquared_nonneg (e : List EllipseData) (m : CalibrationMethod)
    (o : CalibrationOptions) (p : ℕ → ℕ × ℕ) :
    0 ≤ (calculateSectorCalibration e m o p).1.rSquared := by
  by_cases h : e.length < 3
  · simp [calculateSectorCalibration, if_pos h]
  · simp only [calculateSectorCalibration, if_neg h]
    exact abs_nonneg _

/-- C2 (amended): the linear and iterative recomputation paths are
deterministic functions of their inputs alone; the random stream
influences only the RANSAC strategy. -/
theorem calib_deterministic_off_ransac (e : List EllipseData) (m : CalibrationMethod)
    (o : CalibrationOptions) (p1 p2 : ℕ → ℕ × ℕ) (hm : m ≠ CalibrationMethod.ransac) :
    calculateSectorCalibration e m o p1 = calculateSectorCalibration e m o p2 := by
  cases m with
  | linear => rfl
  | iterative => rfl
  | ransac => exact absurd rfl hm

/-- Witness for calib_deterministic_off_ransac with the linear method
and two distinct streams. -/
theorem calib_deterministic_off_ransac_witness :
    calculateSectorCalibration [] .linear ⟨none, none⟩ (fun _ => (0, 1)) =
      calculateSectorCalibration [] .linear ⟨none, none⟩ (fun _ => (2, 3)) :=
  calib_deterministic_off_ransac [] .linear ⟨none, none⟩ (fun _ => (0, 1))
    (fun _ => (2, 3)) (by decide)

/-- C10: the returned ellipse list has the same length and order as the
input, each entry preserves id, cx, cy, rx, ry and angle, and on the
fewer-than-3 path every status is reset to active. -/
theorem calib_frame (e : List EllipseData) (m : CalibrationMethod)
    (o : CalibrationOptions) (p : ℕ → ℕ × ℕ) (i : ℕ) (hi : i < e.length) :
    (calculateSectorCalibration e m o p).2.length = e.length ∧
    ((calculateSectorCalibration e m o p).2[i]?.map coreFields = e[i]?.map coreFields) ∧
    (e.length < 3 →
      (calculateSectorCalibration e m o p).2[i]?.map (fun x => x.status) =
        some SpotStatus.active) := by
  by_cases h : e.length < 3
  · simp only [calculateSectorCalibration, if_pos h]
    refine ⟨by simp, ?_, ?_⟩
    · simp [List.getElem?_map, Option.map_map]
      rfl
    · intro _
      simp [List.getElem?_map, List.getElem?_eq_getElem hi]
  · simp only [calculateSectorCalibration, if_neg h]
    refine ⟨by simp, ?_, fun hc => absurd hc h⟩
    simp [List.getElem?_map, List.getElem?_enum, Option.map_map]
    rfl

/-- Witness for calib_frame at a concrete two-ellipse list and index. -/
theorem calib_frame_witness :
    (calculateSectorCalibration [⟨1, 0, 0, 1, 1, 0, .active⟩, ⟨2, 1, 0, 1, 1, 0, .active⟩]
        .linear ⟨none, none⟩ (fun _ => (0, 0))).2.length = 2 ∧
    ((calculateSectorCalibration [⟨1, 0, 0, 1, 1, 0, .active⟩, ⟨2, 1, 0, 1, 1, 0, .active⟩]
        .linear ⟨none, none⟩ (fun _ => (0, 0))).2[0]?.map coreFields =
      [(⟨1, 0, 0, 1, 1, 0, .active⟩ : EllipseData),
        ⟨2, 1, 0, 1, 1, 0, .active⟩][0]?.map coreFields) ∧
    ((2 : ℕ) < 3 →
      (calculateSectorCalibration [⟨1, 0, 0, 1, 1, 0, .active⟩, ⟨2, 1, 0, 1, 1, 0, .active⟩]
          .linear ⟨none, none⟩ (fun _ => (0, 0))).2[0]?.map (fun x => x.status) =
        some SpotStatus.active) :=
  calib_frame [⟨1, 0, 0, 1, 1, 0, .active⟩, ⟨2, 1, 0, 1, 1, 0, .active⟩]
    .linear ⟨none, none⟩ (fun _ => (0, 0)) 0 (by simp)

/-- C4: on the fitting path (at least 3 ellipses), the status of the
i-th returned ellipse is active exactly when i lies in the inlier set
computed by the chosen strategy, and outlier otherwise. -/
theorem calib_status_iff_inlier (e : List EllipseData) (m : CalibrationMethod)
    (o : CalibrationOptions) (p : ℕ → ℕ × ℕ) (h3 : 3 ≤ e.length) (i : ℕ)
    (hi : i < e.length) :
    (calculateSectorCalibration e m o p).2[i]?.map (fun x => x.status) =
      some (if i ∈ (calibFit (calibData e) m o p).inl then SpotStatus.active
        else SpotStatus.outlier) := by
  have h : ¬ e.length < 3 := by omega
  simp only [calculateSectorCalibration, if_neg h]
  simp [List.getElem?_map, List.getElem?_enum, List.getElem?_eq_getElem hi]

/-- Witness for calib_status_iff_inlier at a concrete 3-ellipse list. -/
theorem calib_status_iff_inlier_witness :
    (calculateSectorCalibration
        [⟨1, 0, 0, 1, 1, 0, .active⟩, ⟨2, 1, 0, 1, 1, 0, .active⟩,
          ⟨3, 2, 0, 1, 1, 0, .active⟩] .linear ⟨none, none⟩ (fun _ => (0, 0))).2[1]?.map
        (fun x => x.status) =
      some (if 1 ∈ (calibFit (calibData
          [⟨1, 0, 0, 1, 1, 0, .active⟩, ⟨2, 1, 0, 1, 1, 0, .active⟩,
            ⟨3, 2, 0, 1, 1, 0, .active⟩]) .linear ⟨none, none⟩ (fun _ => (0, 0))).inl
        then SpotStatus.active else SpotStatus.outlier) :=
  calib_status_iff_inlier
    [⟨1, 0, 0, 1, 1, 0, .active⟩, ⟨2, 1, 0, 1, 1, 0, .active⟩, ⟨3, 2, 0, 1, 1, 0, .active⟩]
    .linear ⟨none, none⟩ (fun _ => (0, 0)) (by simp) 1 (by simp)

/-- C9: for a sector point strictly inside the valid polar domain, the
remapper's target-to-source mapping followed by the spec's forward
formulas reproduces the same (r, theta). -/
theorem sector_roundtrip (cal : CalibrationResult) (srcW srcH r theta : ℝ)
    (_h1 : 0 - cal.rotationCenterX < r) (_h2 : r < srcW - cal.rotationCenterX)
    (h3 : |theta| < |cal.slope| * srcH / 2) :
    specForward cal srcH (sectorSrc cal srcH r theta) = (r, theta) := by
  have hs : |cal.slope| ≠ 0 := by
    intro h0
    rw [h0] at h3
    have : (0 : ℝ) ≤ |theta| := abs_nonneg _
    nlinarith
  simp only [specForward, sectorSrc]
  refine Prod.ext ?_ ?_
  · simp
  · simp only
    rw [add_sub_cancel_right]
    exact div_mul_cancel₀ theta hs

/-- Witness for sector_roundtrip at a concrete model and point. -/
theorem sector_roundtrip_witness :
    specForward ⟨5, 0.01, 0, 0, 0, 0, false⟩ 100
        (sectorSrc ⟨5, 0.01, 0, 0, 0, 0, false⟩ 100 10 0.1) = (10, 0.1) :=
  sector_roundtrip ⟨5, 0.01, 0, 0, 0, 0, false⟩ 200 100 10 0.1 (by norm_num)
    (by norm_num) (by norm_num [abs_of_pos])

/-- C8: a near-zero basis determinant yields no grid, and whenever a
grid is returned, every member of every reported row and column passed
the 40-percent-of-basis-scale residual test. -/
theorem grid_basis_guard (es : List EllipseData) (origin xRef yRef : EllipseData) :
    (|basisDet origin xRef yRef| < 1e-6 → findGridFromBasis es origin xRef yRef = none) ∧
    (∀ g, findGridFromBasis es origin xRef yRef = some g →
      (∀ row ∈ g.rows, ∀ p ∈ row.points,
        gridResid origin xRef yRef p < gridScale origin xRef yRef * 0.4) ∧
      (∀ col ∈ g.cols, ∀ p ∈ col.points,
        gridResid origin xRef yRef p < gridScale origin xRef yRef * 0.4)) := by
  constructor
  · intro h
    simp [findGridFromBasis, if_pos h]
  · intro g hg
    by_cases h : |basisDet origin xRef yRef| < 1e-6
    · simp [findGridFromBasis, if_pos h] at hg
    · simp only [findGridFromBasis, if_neg h, Option.some.injEq] at hg
      subst hg
      constructor
      · intro row hrow p hp
        simp only [List.mem_filter, List.mem_map] at hrow
        obtain ⟨⟨J, _, hJ⟩, _⟩ := hrow
        rw [← hJ] at hp
        simp only [List.mem_filter, decide_eq_true_eq] at hp
        exact hp.1.2
      · intro col hcol p hp
        simp only [List.mem_filter, List.mem_map] at hcol
        obtain ⟨⟨I, _, hI⟩, _⟩ := hcol
        rw [← hI] at hp
        simp only [List.mem_filter, decide_eq_true_eq] at hp
        exact hp.1.2

/-- Witness for grid_basis_guard: a collinear 3-point basis yields no
grid. -/
theorem grid_basis_guard_witness :
    findGridFromBasis [] ⟨1, 0, 0, 1, 1, 0, .active⟩ ⟨2, 1, 0, 1, 1, 0, .active⟩
      ⟨3, 2, 0, 1, 1, 0, .active⟩ = none :=
  (grid_basis_guard [] ⟨1, 0, 0, 1, 1, 0, .active⟩ ⟨2, 1, 0, 1, 1, 0, .active⟩
    ⟨3, 2, 0, 1, 1, 0, .active⟩).1 (by norm_num [basisDet])

/-- C5 (amended): any trimming round that does not break keeps at least
3 survivors, never grows the working set, and removes at least one
point whenever more than 3 points remain (a round entered with exactly
3 points removes none); and what it removes are the worst residuals
under the round's current least-squares fit: the working set splits
into the removed points and the survivors, and every removed point's
residual is at least every survivor's residual. -/
theorem iterRound_bounds (pct : ℝ) (cur next : List IPoint)
    (h : iterRound pct cur = some next) :
    3 ≤ next.length ∧ next.length ≤ cur.length ∧
    (3 < cur.length → next.length < cur.length) ∧
    ∃ dropped : List IPoint, List.Perm (dropped ++ next) cur ∧
      ∀ p ∈ dropped, ∀ q ∈ next,
        iterRes (iterLine cur).1 (iterLine cur).2 q ≤
          iterRes (iterLine cur).1 (iterLine cur).2 p := by
  by_cases h1 : cur.length < 3
  · simp [iterRound, if_pos h1] at h
  · by_cases h2 : |iterDenom cur| < 1e-9
    · simp [iterRound, if_neg h1, if_pos h2] at h
    · simp only [iterRound, if_neg h1, if_neg h2, Option.some.injEq] at h
      subst h
      set rel := fun a b => iterRes (iterLine cur).1 (iterLine cur).2 b ≤
        iterRes (iterLine cur).1 (iterLine cur).2 a with hrel
      set sorted := cur.insertionSort rel with hsorted
      have hlen : sorted.length = cur.length := (List.perm_insertionSort rel cur).length_eq
      set rmv : ℤ := max 1 ⌊(cur.length : ℝ) * (pct / 100)⌋ with hrmv
      set keep : ℤ := max 3 ((cur.length : ℤ) - rmv) with hkeep
      have hr1 : 1 ≤ rmv := le_max_left _ _
      have hlen3 : 3 ≤ cur.length := by omega
      have hkeep3 : 3 ≤ keep.toNat ∧ keep.toNat ≤ cur.length := by omega
      have hdlen : (sorted.drop (sorted.length - keep.toNat)).length = keep.toNat := by
        rw [List.length_drop, hlen]
        omega
      refine ⟨?_, ?_, ?_, sorted.take (sorted.length - keep.toNat), ?_, ?_⟩
      · rw [hdlen]; exact hkeep3.1
      · rw [hdlen]; exact hkeep3.2
      · intro hgt
        rw [hdlen]
        omega
      · rw [List.take_append_drop]
        exact List.perm_insertionSort rel cur
      · haveI : IsTotal IPoint rel := ⟨fun a b => le_total _ _⟩
        haveI : IsTrans IPoint rel := ⟨fun a b c hab hbc => le_trans hbc hab⟩
        have hsort : List.Sorted rel sorted := List.sorted_insertionSort rel cur
        rw [← List.take_append_drop (sorted.length - keep.toNat) sorted] at hsort
        exact (List.pairwise_append.mp hsort).2.2

/-- The 3-point working set used to exhibit a removal-free round. -/
def iterEx3 : List IPoint :=
  [⟨0, 0, 0⟩, ⟨1, 1, 1⟩, ⟨2, 2, 2⟩]

/-- C5 (counterexample): a round of the iterative-trim loop entered with
exactly 3 points removes no point at all, contradicting the claim that
each round removes at least one. -/
theorem iterRound_three_removes_none :
    iterRound 10 iterEx3 = some iterEx3 ∧ iterEx3.length = 3 := by
  constructor
  · norm_num [iterRound, iterDenom, iterLine, iterEx3, iterRes, List.insertionSort,
      List.orderedInsert]
  · rfl

lemma ransacTrial_max_mono (data : List (ℝ × ℝ)) (th : ℝ) (pr : ℕ × ℕ) (st : RState) :
    st.maxInliers ≤ (ransacTrial data th pr st).maxInliers := by
  simp only [ransacTrial]
  split_ifs with h1 h2
  · exact le_rfl
  · exact Nat.le_of_lt h2
  · exact le_rfl

lemma ransacTrial_score_le (data : List (ℝ × ℝ)) (th : ℝ) (pr : ℕ × ℕ) (st : RState) :
    trialScore data th pr ≤ (ransacTrial data th pr st).maxInliers := by
  simp only [trialScore, ransacTrial]
  split_ifs with h1 h2 h3 <;> simp_all

lemma ransacTrial_max_eq_len (data : List (ℝ × ℝ)) (th : ℝ) (pr : ℕ × ℕ) (st : RState)
    (h : st.maxInliers = st.inl.length) :
    (ransacTrial data th pr st).maxInliers = (ransacTrial data th pr st).inl.length := by
  simp only [ransacTrial]
  split_ifs <;> simp [h]

lemma ransacState_zero (data : List (ℝ × ℝ)) (th : ℝ) (pairs : ℕ → ℕ × ℕ) :
    ransacState data th 0 pairs = ⟨0, 0, 0, []⟩ := rfl

lemma ransacState_succ (data : List (ℝ × ℝ)) (th : ℝ) (k : ℕ) (pairs : ℕ → ℕ × ℕ) :
    ransacState data th (k + 1) pairs =
      ransacTrial data th (pairs k) (ransacState data th k pairs) := by
  simp [ransacState, List.range_succ, List.foldl_append]

lemma ransacState_max_eq_len (data : List (ℝ × ℝ)) (th : ℝ) (k : ℕ) (pairs : ℕ → ℕ × ℕ) :
    (ransacState data th k pairs).maxInliers = (ransacState data th k pairs).inl.length := by
  induction k with
  | zero => rfl
  | succ n ih =>
    rw [ransacState_succ]
    exact ransacTrial_max_eq_len data th (pairs n) _ ih

/-- C6 (amended): the RANSAC strategy always runs its fixed trial count
over the injected pair stream (regardless of the point count); the final
best state dominates the inlier score of every trial (near-vertical
pairs are skipped and score 0, inliers are counted within the absolute
residual threshold inside trialScore); and a successful fit returns
exactly the winning inlier set, of size at least 2, refitted by least
squares over it. -/
theorem ransac_best_dominates (data : List (ℝ × ℝ)) (th : ℝ) (iters : ℕ)
    (pairs : ℕ → ℕ × ℕ) :
    (∀ i, i < iters → trialScore data th (pairs i) ≤
      (ransacState data th iters pairs).maxInliers) ∧
    (∀ fr, fitRansac data iters th pairs = some fr →
      fr.inl = (ransacState data th iters pairs).inl ∧ 2 ≤ fr.inl.length ∧
      (fr.slope, fr.intercept) = lsFit (fr.inl.map (fun idx => data.getD idx (0, 0)))) := by
  constructor
  · intro i hi
    induction iters with
    | zero => omega
    | succ n ih =>
      rw [ransacState_succ]
      rcases Nat.lt_succ_iff_lt_or_eq.mp hi with hlt | heq
      · exact le_trans (ih hlt) (ransacTrial_max_mono data th (pairs n) _)
      · subst heq
        exact ransacTrial_score_le data th (pairs i) _
  · intro fr hfr
    by_cases hn : data.length < 2
    · simp [fitRansac, if_pos hn] at hfr
    · simp only [fitRansac, if_neg hn] at hfr
      by_cases h2 : (ransacState data th iters pairs).maxInliers < 2
      · simp [if_pos h2] at hfr
      · simp only [if_neg h2, Option.some.injEq] at hfr
        subst hfr
        refine ⟨rfl, ?_, ?_⟩
        · rw [← ransacState_max_eq_len]
          omega
        · rfl

lemma ransacState_const (data : List (ℝ × ℝ)) (th : ℝ) (c : ℕ × ℕ) (pairs : ℕ → ℕ × ℕ)
    (hp : ∀ i, pairs i = c) (s1 : RState)
    (h1 : ransacTrial data th c ⟨0, 0, 0, []⟩ = s1)
    (hf : ransacTrial data th c s1 = s1) :
    ∀ k, 1 ≤ k → ransacState data th k pairs = s1 := by
  intro k hk
  induction k with
  | zero => omega
  | succ n ih =>
    by_cases hn : n = 0
    · subst hn
      rw [ransacState_succ, hp 0, ransacState_zero, h1]
    · rw [ransacState_succ, hp n, ih (by omega), hf]

/-- The constant pair stream that always samples indices 0 and 1. -/
def pairs01 : ℕ → ℕ × ℕ := fun _ => (0, 1)

/-- The constant pair stream that always samples indices 2 and 3. -/
def pairs23 : ℕ → ℕ × ℕ := fun _ => (2, 3)

/-- Calibration data with two separated point clusters used against the
RANSAC strategy. -/
def rdataA : List (ℝ × ℝ) := [(0, 1), (1, 1), (2, 11), (3, 12)]

lemma trialA01 : ransacTrial rdataA 0.15 (0, 1) ⟨0, 0, 0, []⟩ = ⟨0, 1, 2, [0, 1]⟩ := by
  norm_num [ransacTrial, lineInl, rdataA, List.getD,
    show List.range 4 = [0, 1, 2, 3] from by decide]

lemma trialA01_fix : ransacTrial rdataA 0.15 (0, 1) ⟨0, 1, 2, [0, 1]⟩ = ⟨0, 1, 2, [0, 1]⟩ := by
  norm_num [ransacTrial, lineInl, rdataA, List.getD,
    show List.range 4 = [0, 1, 2, 3] from by decide]

lemma trialA23 : ransacTrial rdataA 0.15 (2, 3) ⟨0, 0, 0, []⟩ = ⟨1, 9, 2, [2, 3]⟩ := by
  norm_num [ransacTrial, lineInl, rdataA, List.getD,
    show List.range 4 = [0, 1, 2, 3] from by decide]

lemma trialA23_fix : ransacTrial rdataA 0.15 (2, 3) ⟨1, 9, 2, [2, 3]⟩ = ⟨1, 9, 2, [2, 3]⟩ := by
  norm_num [ransacTrial, lineInl, rdataA, List.getD,
    show List.range 4 = [0, 1, 2, 3] from by decide]

lemma fitRansacA01 : fitRansac rdataA 100 0.15 pairs01 = some ⟨0, 1, [0, 1]⟩ := by
  have hs := ransacState_const rdataA 0.15 (0, 1) pairs01 (fun _ => rfl) _ trialA01
    trialA01_fix 100 (by norm_num)
  simp only [fitRansac, hs]
  norm_num [rdataA, lsFit, List.getD]

lemma fitRansacA23 : fitRansac rdataA 100 0.15 pairs23 = some ⟨1, 9, [2, 3]⟩ := by
  have hs := ransacState_const rdataA 0.15 (2, 3) pairs23 (fun _ => rfl) _ trialA23
    trialA23_fix 100 (by norm_num)
  simp only [fitRansac, hs]
  norm_num [rdataA, lsFit, List.getD]

lemma getAspect_angle_zero (i : ℤ) (cx cy rx : ℝ) (st : SpotStatus) (hx : 0 ≤ rx) :
    getAspect ⟨i, cx, cy, rx, 1, 0, st⟩ = rx := by
  simp only [getAspect, Real.cos_zero, Real.sin_zero]
  have h1 : (rx * 1) ^ 2 + ((1 : ℝ) * 0) ^ 2 = rx ^ 2 := by ring
  have h2 : (rx * 0) ^ 2 + ((1 : ℝ) * 1) ^ 2 = 1 := by ring
  rw [h1, h2, Real.sqrt_sq hx, Real.sqrt_one]
  norm_num

lemma calib_slope_eq (e : List EllipseData) (m : CalibrationMethod)
    (o : CalibrationOptions) (p : ℕ → ℕ × ℕ) (h : ¬ e.length < 3) :
    (calculateSectorCalibration e m o p).1.slope = (calibFit (calibData e) m o p).slope := by
  simp only [calculateSectorCalibration, if_neg h]

/-- Ellipse list (all at angle 0, unit vertical semi-axis) whose
calibration data is rdataA. -/
def ellB : List EllipseData :=
  [⟨0, 0, 0, 1, 1, 0, .active⟩, ⟨1, 1, 0, 1, 1, 0, .active⟩,
    ⟨2, 2, 0, 11, 1, 0, .active⟩, ⟨3, 3, 0, 12, 1, 0, .active⟩]

lemma calibData_ellB : calibData ellB = rdataA := by
  simp only [calibData, ellB, List.map]
  rw [getAspect_angle_zero 0 0 0 1 .active (by norm_num),
    getAspect_angle_zero 1 1 0 1 .active (by norm_num),
    getAspect_angle_zero 2 2 0 11 .active (by norm_num),
    getAspect_angle_zero 3 3 0 12 .active (by norm_num)]
  rfl

/-- C2 (counterexample): with all pipeline inputs fixed (ellipse list,
ransac method, options), two runs drawing different index pairs from
the ambient random source return different calibration results, so the
RANSAC recomputation is not a function of the claimed inputs alone. -/
theorem calib_ransac_stream_dependent :
    calculateSectorCalibration ellB .ransac ⟨none, none⟩ pairs01 ≠
      calculateSectorCalibration ellB .ransac ⟨none, none⟩ pairs23 := by
  intro hEq
  have h3 : ¬ (ellB.length < 3) := by simp [ellB]
  have hA : (calculateSectorCalibration ellB .ransac ⟨none, none⟩ pairs01).1.slope = 0 := by
    rw [calib_slope_eq _ _ _ _ h3]
    simp only [calibFit, calibData_ellB, fitRansacA01]
    rfl
  have hB : (calculateSectorCalibration ellB .ransac ⟨none, none⟩ pairs23).1.slope = 1 := by
    rw [calib_slope_eq _ _ _ _ h3]
    simp only [calibFit, calibData_ellB, fitRansacA23]
    rfl
  rw [hEq] at hA
  exact absurd (hA.symm.trans hB) (by norm_num)

/-- Calibration data with two separated point clusters, used against the
small-point-count behavior of the RANSAC strategy. -/
def rdataB : List (ℝ × ℝ) := [(0, 2), (1, 2), (2, 30), (3, 31)]

lemma trialB01 : ransacTrial rdataB 0.15 (0, 1) ⟨0, 0, 0, []⟩ = ⟨0, 2, 2, [0, 1]⟩ := by
  norm_num [ransacTrial, lineInl, rdataB, List.getD,
    show List.range 4 = [0, 1, 2, 3] from by decide]

lemma trialB01_fix : ransacTrial rdataB 0.15 (0, 1) ⟨0, 2, 2, [0, 1]⟩ = ⟨0, 2, 2, [0, 1]⟩ := by
  norm_num [ransacTrial, lineInl, rdataB, List.getD,
    show List.range 4 = [0, 1, 2, 3] from by decide]

lemma trialB23 : ransacTrial rdataB 0.15 (2, 3) ⟨0, 0, 0, []⟩ = ⟨1, 28, 2, [2, 3]⟩ := by
  norm_num [ransacTrial, lineInl, rdataB, List.getD,
    show List.range 4 = [0, 1, 2, 3] from by decide]

lemma trialB23_fix : ransacTrial rdataB 0.15 (2, 3) ⟨1, 28, 2, [2, 3]⟩ = ⟨1, 28, 2, [2, 3]⟩ := by
  norm_num [ransacTrial, lineInl, rdataB, List.getD,
    show List.range 4 = [0, 1, 2, 3] from by decide]

lemma fitRansacB01 : fitRansac rdataB 100 0.15 pairs01 = some ⟨0, 2, [0, 1]⟩ := by
  have hs := ransacState_const rdataB 0.15 (0, 1) pairs01 (fun _ => rfl) _ trialB01
    trialB01_fix 100 (by norm_num)
  simp only [fitRansac, hs]
  norm_num [rdataB, lsFit, List.getD]

lemma fitRansacB23 : fitRansac rdataB 100 0.15 pairs23 = some ⟨1, 28, [2, 3]⟩ := by
  have hs := ransacState_const rdataB 0.15 (2, 3) pairs23 (fun _ => rfl) _ trialB23
    trialB23_fix 100 (by norm_num)
  simp only [fitRansac, hs]
  norm_num [rdataB, lsFit, List.getD]

/-- C6 (counterexample): on a small point set (4 points), where the
claim promises deterministic exhaustive pair trials, fitRansac still
follows the injected random pair stream and two different streams give
different fits, so the strategy does not switch to exhaustive pairs for
small inputs. -/
theorem ransac_no_exhaustive_small_n :
    fitRansac rdataB 100 0.15 pairs01 ≠ fitRansac rdataB 100 0.15 pairs23 := by
  rw [fitRansacB01, fitRansacB23]
  intro h
  rw [Option.some.injEq, FitResult.mk.injEq] at h
  exact absurd h.1 (by norm_num)

/-- Witness for ransac_best_dominates at the concrete 4-point data set
and constant stream. -/
theorem ransac_best_dominates_witness :
    (trialScore rdataB 0.15 (pairs01 0) ≤ (ransacState rdataB 0.15 100 pairs01).maxInliers) ∧
    ((⟨0, 2, [0, 1]⟩ : FitResult).inl = (ransacState rdataB 0.15 100 pairs01).inl ∧
      2 ≤ (⟨0, 2, [0, 1]⟩ : FitResult).inl.length ∧
      ((⟨0, 2, [0, 1]⟩ : FitResult).slope, (⟨0, 2, [0, 1]⟩ : FitResult).intercept) =
        lsFit ((⟨0, 2, [0, 1]⟩ : FitResult).inl.map (fun idx => rdataB.getD idx (0, 0)))) :=
  ⟨(ransac_best_dominates rdataB 0.15 100 pairs01).1 0 (by norm_num),
    (ransac_best_dominates rdataB 0.15 100 pairs01).2 ⟨0, 2, [0, 1]⟩ fitRansacB01⟩

/-- The 4-point working set used to witness the trimming bounds. -/
def iterEx4 : List IPoint :=
  [⟨0, 0, 0⟩, ⟨1, 1, 1⟩, ⟨2, 2, 2⟩, ⟨3, 3, 3⟩]

lemma iterRound_ex4 : iterRound 10 iterEx4 = some [⟨1, 1, 1⟩, ⟨2, 2, 2⟩, ⟨3, 3, 3⟩] := by
  norm_num [iterRound, iterDenom, iterLine, iterEx4, iterRes, List.insertionSort,
    List.orderedInsert]
  rfl

/-- Witness for iterRound_bounds at a concrete 4-point round. -/
theorem iterRound_bounds_witness :
    3 ≤ ([⟨1, 1, 1⟩, ⟨2, 2, 2⟩, ⟨3, 3, 3⟩] : List IPoint).length ∧
    ([⟨1, 1, 1⟩, ⟨2, 2, 2⟩, ⟨3, 3, 3⟩] : List IPoint).length ≤ iterEx4.length ∧
    (3 < iterEx4.length →
      ([⟨1, 1, 1⟩, ⟨2, 2, 2⟩, ⟨3, 3, 3⟩] : List IPoint).length < iterEx4.length) ∧
    ∃ dropped : List IPoint,
      List.Perm (dropped ++ [⟨1, 1, 1⟩, ⟨2, 2, 2⟩, ⟨3, 3, 3⟩]) iterEx4 ∧
      ∀ p ∈ dropped, ∀ q ∈ ([⟨1, 1, 1⟩, ⟨2, 2, 2⟩, ⟨3, 3, 3⟩] : List IPoint),
        iterRes (iterLine iterEx4).1 (iterLine iterEx4).2 q ≤
          iterRes (iterLine iterEx4).1 (iterLine iterEx4).2 p :=
  iterRound_bounds 10 iterEx4 [⟨1, 1, 1⟩, ⟨2, 2, 2⟩, ⟨3, 3, 3⟩] iterRound_ex4

/-- Ellipse list (all at angle 0, unit vertical semi-axis) whose linear
fit is skewed by the last point. -/
def ellC : List EllipseData :=
  [⟨0, 0, 0, 1, 1, 0, .active⟩, ⟨1, 1, 0, 1.1, 1, 0, .active⟩,
    ⟨2, 2, 0, 1, 1, 0, .active⟩, ⟨3, 3, 0, 11, 1, 0, .active⟩]

/-- The calibration data of ellC. -/
def rdataC : List (ℝ × ℝ) := [(0, 1), (1, 1.1), (2, 1), (3, 11)]

lemma calibData_ellC : calibData ellC = rdataC := by
  simp only [calibData, ellC, List.map]
  rw [getAspect_angle_zero 0 0 0 1 .active (by norm_num),
    getAspect_angle_zero 1 1 0 1.1 .active (by norm_num),
    getAspect_angle_zero 2 2 0 1 .active (by norm_num),
    getAspect_angle_zero 3 3 0 11 .active (by norm_num)]
  rfl

lemma fitLinC : fitLinearWithOutlierRemoval rdataC = ⟨2.99, -0.96, [0, 1]⟩ := by
  have hls : lsFit rdataC = (2.99, -0.96) := by
    norm_num [lsFit, rdataC]
  simp only [fitLinearWithOutlierRemoval, hls]
  have hres : rdataC.map (fun p => |p.2 - ((2.99, -0.96).1 * p.1 + (2.99, -0.96).2)|) =
      [1.96, 0.93, 4.02, 2.99] := by
    norm_num [rdataC]
  rw [hres]
  have hvar : (([1.96, 0.93, 4.02, 2.99] : List ℝ).map
      (fun r => (r - ([1.96, 0.93, 4.02, 2.99] : List ℝ).sum / (rdataC.length : ℝ)) ^ 2)).sum /
      (rdataC.length : ℝ) = 1.326125 := by
    norm_num [rdataC]
  rw [hvar]
  have hs1 : (0.98 : ℝ) ≤ Real.sqrt 1.326125 :=
    (Real.le_sqrt (by norm_num) (by norm_num)).mpr (by norm_num)
  have hs2 : Real.sqrt 1.326125 < 1.495 := (Real.sqrt_lt' (by norm_num)).mpr (by norm_num)
  have hin0 : ([1.96, 0.93, 4.02, 2.99] : List ℝ).getD 0 0 ≤
      max (Real.sqrt 1.326125 * 2) 0.05 := by
    refine le_max_of_le_left ?_
    simp only [List.getD_cons_zero]
    nlinarith
  have hin1 : ([1.96, 0.93, 4.02, 2.99] : List ℝ).getD 1 0 ≤
      max (Real.sqrt 1.326125 * 2) 0.05 := by
    refine le_max_of_le_left ?_
    simp only [List.getD_cons_succ, List.getD_cons_zero]
    nlinarith
  have hout2 : ¬ (([1.96, 0.93, 4.02, 2.99] : List ℝ).getD 2 0 ≤
      max (Real.sqrt 1.326125 * 2) 0.05) := by
    simp only [List.getD_cons_succ, List.getD_cons_zero, not_le]
    exact max_lt (by nlinarith) (by norm_num)
  have hout3 : ¬ (([1.96, 0.93, 4.02, 2.99] : List ℝ).getD 3 0 ≤
      max (Real.sqrt 1.326125 * 2) 0.05) := by
    simp only [List.getD_cons_succ, List.getD_cons_zero, not_le]
    exact max_lt (by nlinarith) (by norm_num)
  rw [show rdataC.length = 4 from rfl, show List.range 4 = [0, 1, 2, 3] from by decide]
  simp only [List.filter_cons, List.filter_nil, decide_eq_true hin0, decide_eq_true hin1,
    decide_eq_false hout2, decide_eq_false hout3]
  rfl

lemma inlSelectC : inlSelect rdataC [0, 1] = [(0, (0, 1)), (1, (1, 1.1))] := by
  simp [inlSelect, rdataC, List.enum, List.enumFrom, List.filter_cons]

/-- C1 (counterexample): for the linear strategy, whose line is fitted
on all points but scored only on the inlier subset, the returned
rSquared exceeds 1 at this concrete input (it is about 940), so
rSquared does not lie in [0, 1]. -/
theorem calib_rSquared_above_one :
    1 < (calculateSectorCalibration ellC .linear ⟨none, none⟩ pairs01).1.rSquared := by
  have h3 : ¬ (ellC.length < 3) := by simp [ellC]
  simp only [calculateSectorCalibration, if_neg h3, calibData_ellC]
  simp only [calibFit, fitLinC, inlSelectC]
  norm_num
  rw [abs_of_pos] <;> norm_num

/-- C7 (amended): an empty crop window or fewer than 3 collected pixels
return the ellipse unchanged at the region's center and axes; but a
zero total weight with at least 3 pixels returns the fallback ellipse at
the crop-window origin with unit semi-axes and zero angle, not the
region's center. -/
theorem roi_degenerate (img : Img) (roi : ROI) (mode : ProcessingMode) (thOv : Option ℝ) :
    ((roiCrop img roi).2.2.1 ≤ 0 ∨ (roiCrop img roi).2.2.2 ≤ 0 →
      extractEllipseFromROI img roi mode thOv =
        ⟨roi.id, roi.cx, roi.cy, roi.rx, roi.ry, roi.rotation, .active⟩) ∧
    ((roiPixels img roi mode).length < 3 →
      extractEllipseFromROI img roi mode thOv =
        ⟨roi.id, roi.cx, roi.cy, roi.rx, roi.ry, roi.rotation, .active⟩) ∧
    (¬ ((roiCrop img roi).2.2.1 ≤ 0 ∨ (roiCrop img roi).2.2.2 ≤ 0) →
      3 ≤ (roiPixels img roi mode).length →
      (roiMoments (roiPixels img roi mode) (roiThreshold (roiPixels img roi mode) thOv)).1 = 0 →
      extractEllipseFromROI img roi mode thOv =
        ⟨roi.id, ((roiCrop img roi).1 : ℝ), ((roiCrop img roi).2.1 : ℝ), 1, 1, 0, .active⟩) := by
  refine ⟨?_, ?_, ?_⟩
  · intro h
    simp only [extractEllipseFromROI]
    rw [if_pos h]
  · intro h
    simp only [extractEllipseFromROI]
    by_cases hg : (roiCrop img roi).2.2.1 ≤ 0 ∨ (roiCrop img roi).2.2.2 ≤ 0
    · rw [if_pos hg]
    · rw [if_neg hg, if_pos h]
  · intro hg hp hm
    simp only [extractEllipseFromROI]
    rw [if_neg hg, if_neg (by omega)]
    simp only [calculateEllipseFromMoments, if_pos hm]

/-- A 3x3 all-black canvas. -/
def img3 : Img := ⟨3, 3, fun _ _ => (0, 0, 0)⟩

/-- A unit-radius circular region centred at (1, 1) of img3. -/
def roiC7 : ROI := ⟨7, 1, 1, 1, 1, 0⟩

lemma roiCrop_C7 : roiCrop img3 roiC7 = (0, 0, 2, 2) := by
  norm_num [roiCrop, img3, roiC7]

lemma roiPixels_C7 : roiPixels img3 roiC7 .light = [(1, 0, 0), (0, 1, 0), (1, 1, 0)] := by
  simp only [roiPixels, roiCrop_C7]
  norm_num [img3, roiC7, pxVal, getLuminance, neg_zero, Real.cos_zero, Real.sin_zero,
    List.filterMap, show List.range 4 = [0, 1, 2, 3] from by decide]

lemma roiMoments_C7 : roiMoments [(1, 0, 0), (0, 1, 0), (1, 1, 0)] 50 = (0, 0, 0, 0, 0, 0) := by
  norm_num [roiMoments, List.filter_cons]

/-- C7 (counterexample): a region whose 3 collected pixels all fall
below the threshold override (zero total weight) is not returned
unchanged: the result sits at the crop origin (0, 0) with unit radii
while the region is centred at (1, 1). -/
theorem roi_zero_weight_moves_center :
    extractEllipseFromROI img3 roiC7 .light (some 50) = ⟨7, 0, 0, 1, 1, 0, .active⟩ ∧
      roiC7.cx = 1 := by
  constructor
  · have h := (roi_degenerate img3 roiC7 .light (some 50)).2.2
    rw [roiCrop_C7] at h
    have h2 := h (by norm_num) (by rw [roiPixels_C7]; norm_num) ?_
    · simpa [roiC7] using h2
    · rw [roiPixels_C7]
      have ht : roiThreshold [(1, 0, 0), (0, 1, 0), (1, 1, 0)] (some 50) = 50 := by
        norm_num [roiThreshold]
      rw [ht, roiMoments_C7]
  · rfl

/-- A region whose crop window lies outside img3 (negative width). -/
def roiV : ROI := ⟨9, -10, 1, 1, 1, 0⟩

/-- A region so small that no integer pixel falls inside it. -/
def roiW : ROI := ⟨8, 0.5, 0.5, 0.2, 0.2, 0⟩

lemma roiCrop_V : (roiCrop img3 roiV).2.2.1 ≤ 0 := by
  have hend : ⌈min ((3 : ℤ) : ℝ) (roiV.cx + max roiV.rx roiV.ry)⌉ = -9 := by
    rw [show min ((3 : ℤ) : ℝ) (roiV.cx + max roiV.rx roiV.ry) = -9 by norm_num [roiV]]
    rw [Int.ceil_eq_iff]
    norm_num
  have hf : 0 ≤ ⌊max (0 : ℝ) (roiV.cx - max roiV.rx roiV.ry)⌋ :=
    Int.floor_nonneg.mpr (le_max_left _ _)
  simp only [roiCrop, img3]
  rw [hend]
  omega

lemma roiCrop_W : roiCrop img3 roiW = (0, 0, 1, 1) := by
  have h1 : ⌊max (0 : ℝ) (roiW.cx - max roiW.rx roiW.ry)⌋ = 0 := by
    rw [show max (0 : ℝ) (roiW.cx - max roiW.rx roiW.ry) = 0.3 by norm_num [roiW]]
    rw [Int.floor_eq_iff]
    norm_num
  have h2 : ⌊max (0 : ℝ) (roiW.cy - max roiW.rx roiW.ry)⌋ = 0 := by
    rw [show max (0 : ℝ) (roiW.cy - max roiW.rx roiW.ry) = 0.3 by norm_num [roiW]]
    rw [Int.floor_eq_iff]
    norm_num
  have h3 : ⌈min ((3 : ℤ) : ℝ) (roiW.cx + max roiW.rx roiW.ry)⌉ = 1 := by
    rw [show min ((3 : ℤ) : ℝ) (roiW.cx + max roiW.rx roiW.ry) = 0.7 by norm_num [roiW]]
    rw [Int.ceil_eq_iff]
    norm_num
  have h4 : ⌈min ((3 : ℤ) : ℝ) (roiW.cy + max roiW.rx roiW.ry)⌉ = 1 := by
    rw [show min ((3 : ℤ) : ℝ) (roiW.cy + max roiW.rx roiW.ry) = 0.7 by norm_num [roiW]]
    rw [Int.ceil_eq_iff]
    norm_num
  simp only [roiCrop, img3]
  rw [h1, h2, h3, h4]
  norm_num

lemma roiPixels_W : roiPixels img3 roiW .light = [] := by
  simp only [roiPixels, roiCrop_W]
  norm_num [img3, roiW, neg_zero, Real.cos_zero, Real.sin_zero, List.filterMap,
    show List.range 1 = [0] from by decide]

/-- Witness for roi_degenerate: an empty crop window and an
empty-pixel region both return the ellipse unchanged. -/
theorem roi_degenerate_witness :
    extractEllipseFromROI img3 roiV .light none = ⟨9, -10, 1, 1, 1, 0, .active⟩ ∧
    extractEllipseFromROI img3 roiW .light none = ⟨8, 0.5, 0.5, 0.2, 0.2, 0, .active⟩ :=
  ⟨(roi_degenerate img3 roiV .light none).1 (Or.inl roiCrop_V),
    (roi_degenerate img3 roiW .light none).2.1 (by rw [roiPixels_W]; norm_num)⟩

end EPX
